import Mathlib

/-!
Verification of the Ubiflow medical-gas floor-plan designer.

The definitions below are a shallow embedding of the TypeScript/JavaScript
source of the diagram document engine: the entity model (items, connections,
drawables, imported DXF background segments), the snapshot-based undo/redo
history, connection validation, routing, zoom and the gas-load calculator.
JavaScript numbers are modelled as rationals (`ℚ`); the DXF import
normalisation, which genuinely manipulates IEEE infinities, is modelled with
an explicit extended-number type `JNum`.
-/

/-- Item variant, from the `type: 'Bed'|'Source'` field of `Item`. -/
inductive ItemType where
  | Bed
  | Source
deriving DecidableEq, Repr

/-- The three gas layers, from `GAS_LAYERS` (`O2`, `MA4`, `VAC`). -/
inductive GasLayer where
  | O2
  | MA4
  | VAC
deriving DecidableEq, Repr

/-- `const LAYER_OFFSETS = { O2: 0, MA4: -25, VAC: 25 }`. -/
def LAYER_OFFSETS : GasLayer → ℚ
  | GasLayer.O2 => 0
  | GasLayer.MA4 => -25
  | GasLayer.VAC => 25

/-- A placed device:
`type Item = { id, x, y, type: 'Bed'|'Source', label, iconUrl, rotation }`. -/
structure Item where
  id : Nat
  x : ℚ
  y : ℚ
  type : ItemType
  label : String
  iconUrl : String
  rotation : ℚ
deriving DecidableEq, Repr

/-- A pipe:
`type Connection = { id, start, end, bendOffset, layer }`.
The `end` field is renamed `endId` (`end` is a Lean keyword). -/
structure Connection where
  id : Nat
  start : Nat
  endId : Nat
  bendOffset : ℚ
  layer : GasLayer
deriving DecidableEq, Repr

/-- Discriminator of a CAD annotation (`'LINE'|'RECT'|'TEXT'`). -/
inductive DrawKind where
  | LINE
  | RECT
  | TEXT
deriving DecidableEq, Repr

/-- A CAD annotation with the source's optional-field shape:
`type Drawable = { id, type, points?, x?, y?, width?, height?, text?, stroke?, fill?, rotation? }`. -/
structure Drawable where
  id : Nat
  type : DrawKind
  points : Option (List ℚ) := none
  x : Option ℚ := none
  y : Option ℚ := none
  width : Option ℚ := none
  height : Option ℚ := none
  text : Option String := none
  stroke : Option String := none
  fill : Option String := none
  rotation : Option ℚ := none
deriving DecidableEq, Repr

/-- An imported background segment as stored in `dxfEntities`
(`{ id, points }` after normalisation). -/
structure DxfEntity where
  id : Nat
  points : List ℚ
deriving DecidableEq, Repr

/-- The document aggregate: exactly the four collections captured by a
history snapshot (`{ items, connections, drawables, dxfEntities }`). -/
structure Doc where
  items : List Item
  connections : List Connection
  drawables : List Drawable
  dxfEntities : List DxfEntity
deriving DecidableEq, Repr

/-- The initial empty document (`{ items: [], connections: [], drawables: [], dxfEntities: [] }`). -/
def emptyDoc : Doc := ⟨[], [], [], []⟩

/-! ## Router: orthogonal pipe path, layer offset, length (part_000 render loop, `getDistance`) -/

/-- Rendered pipe polyline, flat Konva point list, from the render loop of
`part_000`:
`midX = ((start.x + end.x) / 2) + (conn.bendOffset || 0) + (LAYER_OFFSETS[conn.layer] || 0)`
`points = [start.x, start.y, midX, start.y, midX, end.y, end.x, end.y]`.
`|| 0` is the identity here since `bendOffset` is always a number and
`LAYER_OFFSETS` is total on the three layers (`O2` maps to `0`). -/
def pipeRenderPoints (conn : Connection) (start endItem : Item) : List ℚ :=
  let midX := (start.x + endItem.x) / 2 + conn.bendOffset + LAYER_OFFSETS conn.layer
  [start.x, start.y, midX, start.y, midX, endItem.y, endItem.x, endItem.y]

/-- Modelled from the spec's words (§4.3): the 4-point polyline
`[A, (midX, A.y), (midX, B.y), B]` with `midX = (A.x + B.x)/2 + o + layerOffset(L)`. -/
def specPipePolyline (A B : ℚ × ℚ) (L : GasLayer) (o : ℚ) : List (ℚ × ℚ) :=
  let midX := (A.1 + B.1) / 2 + o + LAYER_OFFSETS L
  [A, (midX, A.2), (midX, B.2), B]

/-- Flattens a point list into the Konva flat coordinate list. -/
def flattenPts : List (ℚ × ℚ) → List ℚ
  | [] => []
  | p :: ps => p.1 :: p.2 :: flattenPts ps

/-- Rounding performed by `Number.prototype.toFixed(2)` on a nonnegative value:
round to the nearest multiple of 1/100, ties away from zero. -/
def round2 (q : ℚ) : ℚ := (⌊q * 100 + 1 / 2⌋ : ℚ) / 100

/-- `getDistance(start, end) = ((Math.abs(end.x - start.x) + Math.abs(end.y - start.y)) / pixelsPerMeter).toFixed(2)`
(part_000 line 312). The decimal string result is modelled as the rounded
rational it denotes. -/
def getDistance (start endP : ℚ × ℚ) (pixelsPerMeter : ℚ) : ℚ :=
  round2 ((|endP.1 - start.1| + |endP.2 - start.2|) / pixelsPerMeter)

/-- Modelled from the spec's words (§4.3): the Manhattan distance between A
and B divided by the pixels-per-meter scale constant, with no rounding. -/
def specManhattanLength (start endP : ℚ × ℚ) (pixelsPerMeter : ℚ) : ℚ :=
  (|endP.1 - start.1| + |endP.2 - start.2|) / pixelsPerMeter

/-! ## Geometry / zoom (handleWheel) -/

/-- `viewToWorld(p) = (p - t)/s`; in the source this appears as
`mousePointTo = { x: (pointer.x - stage.x()) / oldScale, y: (pointer.y - stage.y()) / oldScale }`. -/
def viewToWorld (p t : ℚ × ℚ) (s : ℚ) : ℚ × ℚ :=
  ((p.1 - t.1) / s, (p.2 - t.2) / s)

/-- The translation update of `handleWheel` for a given new scale:
`setStagePos({ x: pointer.x - mousePointTo.x * newScale, y: pointer.y - mousePointTo.y * newScale })`. -/
def zoomUpdate (pointer stagePos : ℚ × ℚ) (oldScale newScale : ℚ) : ℚ × ℚ :=
  let mousePointTo := viewToWorld pointer stagePos oldScale
  (pointer.1 - mousePointTo.1 * newScale, pointer.2 - mousePointTo.2 * newScale)

/-- `handleWheel` (part_000 lines 247-255): `scaleBy = 1.1`; zoom in multiplies
the scale by 1.1, zoom out divides, and the stage position is recomputed so the
pointer keeps its world coordinate. -/
def handleWheel (pointer stagePos : ℚ × ℚ) (oldScale : ℚ) (zoomIn : Bool) : ℚ × (ℚ × ℚ) :=
  let newScale := if zoomIn then oldScale * (11 / 10) else oldScale / (11 / 10)
  (newScale, zoomUpdate pointer stagePos oldScale newScale)

/-- C5: for every Connection with existing endpoints the rendered path is
exactly the 4-point polyline `[A, (midX, A.y), (midX, B.y), B]` with
`midX = (A.x + B.x)/2 + bendOffset + layerOffset(layer)`, where the layer
offsets are the fixed constants 0 (default layer O2), -25 (MA4, shifted left)
and 25 (VAC, shifted right). -/
theorem c5_pipe_path (conn : Connection) (start endItem : Item) :
    pipeRenderPoints conn start endItem =
      flattenPts (specPipePolyline (start.x, start.y) (endItem.x, endItem.y)
        conn.layer conn.bendOffset) ∧
    LAYER_OFFSETS GasLayer.O2 = 0 ∧
    LAYER_OFFSETS GasLayer.MA4 = -25 ∧
    LAYER_OFFSETS GasLayer.VAC = 25 := by
  refine ⟨?_, rfl, rfl, rfl⟩
  simp [pipeRenderPoints, specPipePolyline, flattenPts]

/-- C4 counterexample: `getDistance` is the Manhattan distance over the scale
constant only up to the `toFixed(2)` rounding. At endpoints (0,0), (1,0) with
`pixelsPerMeter = 3` the code yields 0.33, not 1/3, so the claimed exact
equality fails. -/
theorem c4_counterexample :
    getDistance (0, 0) (1, 0) 3 = 33 / 100 ∧
    specManhattanLength (0, 0) (1, 0) 3 = 1 / 3 ∧
    getDistance (0, 0) (1, 0) 3 ≠ specManhattanLength (0, 0) (1, 0) 3 := by
  refine ⟨?_, ?_, ?_⟩ <;> norm_num [getDistance, specManhattanLength, round2]

/-- C4 amended: a Connection's displayed length is the Manhattan distance
between its endpoints divided by `pixelsPerMeter` and then rounded to two
decimal places by `toFixed(2)`; it does not depend on `bendOffset` or on the
rendered polyline (the signature of `getDistance` takes only the endpoints and
the scale). The §8 example, endpoints (0,0) and (300,0) at 50 px/unit, gives
exactly 6. -/
theorem c4_length_rounded (start endP : ℚ × ℚ) (ppm : ℚ) :
    getDistance start endP ppm = round2 (specManhattanLength start endP ppm) ∧
    getDistance (0, 0) (300, 0) 50 = 6 := by
  constructor
  · rfl
  · norm_num [getDistance, specManhattanLength, round2]

/-- C7: the zoom-at-pointer update `t' = P - (P - t)/s * s'` leaves the world
point under the cursor exactly fixed: `(P - t')/s' = (P - t)/s` for all nonzero
scales, with exact equality in the rational model of the arithmetic. -/
theorem c7_zoom_invariance (P t : ℚ × ℚ) (s s' : ℚ) (hs : s ≠ 0) (hs' : s' ≠ 0) :
    viewToWorld P (zoomUpdate P t s s') s' = viewToWorld P t s := by
  unfold zoomUpdate viewToWorld
  refine Prod.ext ?_ ?_ <;> field_simp <;> ring

/-- C7 witness: a concrete zoom step with P=(3,4), t=(1,2), s=2, s'=11/5
preserves the world coordinate under the pointer. -/
theorem c7_witness :
    (2 : ℚ) ≠ 0 ∧ (11 / 5 : ℚ) ≠ 0 ∧
    viewToWorld (3, 4) (zoomUpdate (3, 4) (1, 2) 2 (11 / 5)) (11 / 5) =
      viewToWorld (3, 4) (1, 2) 2 :=
  ⟨by norm_num, by norm_num,
    c7_zoom_invariance (3, 4) (1, 2) 2 (11 / 5) (by norm_num) (by norm_num)⟩

/-! ## Gas load calculator (src/app/gasLogic.js, first variant) -/

/-- One gas entry of the calculator result (`{ flow, formula, pipe }`). -/
structure GasEntry where
  flow : ℚ
  formula : String
  pipe : String
deriving DecidableEq, Repr

/-- The calculator result (`{ oxygen, medicalAir, surgicalAir, vacuum }`). -/
structure GasLoadResults where
  oxygen : GasEntry
  medicalAir : GasEntry
  surgicalAir : GasEntry
  vacuum : GasEntry
deriving DecidableEq, Repr

/-- The initial all-zero results structure of `calculateGasLoad`. -/
def initGasResults : GasLoadResults :=
  ⟨⟨0, "", ""⟩, ⟨0, "", ""⟩, ⟨0, "", ""⟩, ⟨0, "", ""⟩⟩

/-- `getPipeSize(flow, type)` (gasLogic.js lines 8-43): HTM 02-01 pipe-size
lookup tables. -/
def getPipeSize (flow : ℚ) (type : String) : String :=
  if flow ≤ 0 then "N/A"
  else if type = "oxygen" ∨ type = "medical_air" ∨ type = "nitrous_oxide" then
    if flow ≤ 307 then "12mm Copper"
    else if flow ≤ 572 then "15mm Copper"
    else if flow ≤ 1656 then "22mm Copper"
    else if flow ≤ 3320 then "28mm Copper"
    else if flow ≤ 5943 then "35mm Copper"
    else if flow ≤ 9963 then "42mm Copper"
    else "54mm+ (Consult Engineer)"
  else if type = "surgical_air" then
    if flow ≤ 405 then "12mm Copper"
    else if flow ≤ 754 then "15mm Copper"
    else if flow ≤ 2175 then "22mm Copper"
    else if flow ≤ 4351 then "28mm Copper"
    else "35mm+ (Consult Engineer)"
  else if type = "vacuum" then
    if flow ≤ 60 then "12mm Copper"
    else if flow ≤ 113 then "15mm Copper"
    else if flow ≤ 330 then "22mm Copper"
    else if flow ≤ 666 then "28mm Copper"
    else if flow ≤ 1198 then "35mm Copper"
    else if flow ≤ 2016 then "42mm Copper"
    else "54mm+ (Consult Engineer)"
  else "Calc Req"

/-- The room-type switch of `calculateGasLoad` (gasLogic.js lines 63-210),
producing the raw (pre-ceiling) flows and formula strings. Unknown room types
fall through to the all-zero structure (the `default` case). -/
def gasFlowsFor (roomType : String) (n : ℚ) : GasLoadResults :=
  if roomType = "ward_single_4bed" then
    { initGasResults with
      oxygen := ⟨10 + (n - 1) * 6 / 4, "Q = 10 + [(n-1)*6]/4", ""⟩,
      medicalAir := ⟨20 + (n - 1) * 10 / 4, "Q = 20 + [(n-1)*10]/4", ""⟩,
      vacuum := ⟨40, "Q = 40 (Per Ward Unit)", ""⟩ }
  else if roomType = "ward_department" then
    { initGasResults with
      oxygen := ⟨10 + (n - 1) * 6 / 4, "Q = 10 + [(n-1)*6]/4 (Ward Basis)", ""⟩,
      medicalAir := ⟨20 + (n - 1) * 10 / 4, "Q = 20 + [(n-1)*10]/4", ""⟩,
      vacuum := ⟨40, "Q = 40", ""⟩ }
  else if roomType = "ae_resus" then
    { initGasResults with
      oxygen := ⟨100 + (n - 1) * 6 / 4, "Q = 100 + [(n-1)*6]/4", ""⟩,
      medicalAir := ⟨40 + (n - 1) * 20 / 4, "Q = 40 + [(n-1)*20]/4", ""⟩,
      vacuum := ⟨40 + (n - 1) * 40 / 4, "Q = 40 + [(n-1)*40]/4", ""⟩ }
  else if roomType = "ae_major_treatment" then
    { initGasResults with
      oxygen := ⟨10 + (n - 1) * 6 / 4, "Q = 10 + [(n-1)*6]/4", ""⟩,
      medicalAir := ⟨40 + (n - 1) * 20 / 4, "Q = 40 + [(n-1)*20]/4", ""⟩,
      vacuum := ⟨40 + (n - 1) * 40 / 4, "Q = 40 + [(n-1)*40]/4", ""⟩ }
  else if roomType = "ae_treatment_cubicle" then
    { initGasResults with
      oxygen := ⟨10 + (n - 1) * 6 / 10, "Q = 10 + [(n-1)*6]/10", ""⟩,
      vacuum := ⟨40 + (n - 1) * 40 / 8, "Q = 40 + [(n-1)*40]/8", ""⟩ }
  else if roomType = "operating_rooms" then
    { initGasResults with
      oxygen := ⟨100 + (n - 1) * 10, "Q = 100 + (nT-1)*10", ""⟩,
      medicalAir := ⟨40 + (n - 1) * 40 / 4, "Q = 40 + [(nT-1)*40]/4", ""⟩,
      vacuum := ⟨80 + (n - 1) * 80 / 2, "Q(suite) = 80 + [(nS-1)*80]/2", ""⟩,
      surgicalAir :=
        if n < 4 then ⟨350 + (n - 1) * 350 / 2, "Q = 350 + [(n-1)*350]/2", ""⟩
        else ⟨350 + (n - 1) * 350 / 4, "Q = 350 + [(n-1)*350]/4", ""⟩ }
  else if roomType = "recovery" then
    { initGasResults with
      oxygen := ⟨10 + (n - 1) * 6, "Q = 10 + (n-1)*6", ""⟩,
      medicalAir := ⟨40 + (n - 1) * 10 / 4, "Q = 40 + [(n-1)*10]/4", ""⟩,
      vacuum := ⟨40 + (n - 1) * 40 / 4, "Q = 40 + [(n-1)*40]/4", ""⟩ }
  else if roomType = "maternity_ldrp" then
    { initGasResults with
      oxygen := ⟨10 + (n - 1) * 6 / 4, "Q = 10 + [(n-1)*6]/4", ""⟩,
      medicalAir := ⟨40 + (n - 1) * 40 / 4, "Q = 40 + [(n-1)*40]/4", ""⟩,
      vacuum := ⟨40 + (n - 1) * 40 / 4, "Q = 40 + [(n-1)*40]/4", ""⟩ }
  else if roomType = "maternity_operating" then
    { initGasResults with
      oxygen := ⟨100 + (n - 1) * 6, "Q = 100 + (nS-1)*6", ""⟩,
      medicalAir := ⟨40 + (n - 1) * 10 / 4, "Q = 40 + [(nS-1)*10]/4", ""⟩,
      vacuum := ⟨80 + (n - 1) * 80 / 2, "Q = 80 + [(nS-1)*80]/2", ""⟩ }
  else if roomType = "neonatal" then
    { initGasResults with
      oxygen := ⟨10 + (n - 1) * 6, "Q = 10 + (n-1)*6", ""⟩,
      medicalAir := ⟨40 * n, "Q = 40n", ""⟩,
      vacuum := ⟨40 + (n - 1) * 40 / 4, "Q = 40 + [(n-1)*40]/4", ""⟩ }
  else if roomType = "critical_care" then
    { initGasResults with
      oxygen := ⟨10 + (n - 1) * 6 * 3 / 4, "Q = 10 + [(n-1)*6]*3/4", ""⟩,
      medicalAir := ⟨80 + (n - 1) * 80 / 2, "Q = 80 + [(n-1)*80]/2", ""⟩,
      vacuum := ⟨40 + (n - 1) * 40 / 4, "Q = 40 + [(n-1)*40]/4", ""⟩ }
  else if roomType = "renal" then
    { initGasResults with
      oxygen := ⟨10 + (n - 1) * 6 / 4, "Q = 10 + [(n-1)*6]/4", ""⟩,
      medicalAir := ⟨20 + (n - 1) * 10 / 4, "Q = 20 + [(n-1)*10]/4", ""⟩,
      vacuum := ⟨40 + (n - 1) * 40 / 4, "Q = 40 + [(n-1)*40]/4", ""⟩ }
  else if roomType = "radiology" then
    { initGasResults with
      oxygen := ⟨10 + (n - 1) * 6 / 3, "Q = 10 + [(n-1)*6]/3", ""⟩,
      medicalAir := ⟨40 + (n - 1) * 40 / 4, "Q = 40 + [(n-1)*40]/4", ""⟩,
      vacuum := ⟨40 + (n - 1) * 40 / 8, "Q = 40 + [(n-1)*40]/8", ""⟩ }
  else initGasResults

/-- `calculateGasLoad(roomType, bedCount)` (gasLogic.js lines 49-227).
`bedCount` is modelled as the result of `parseFloat`: `none` stands for `NaN`
(no numeric prefix), so `n = parseFloat(bedCount) || 0` is `bedCount.getD 0`
(`0 || 0` is `0`, matching the JS coercion). After the room-type switch the
flows are rounded up with `Math.ceil` and the pipe sizes looked up. -/
def calculateGasLoad (roomType : String) (bedCount : Option ℚ) : GasLoadResults :=
  let n := bedCount.getD 0
  if n ≤ 0 then initGasResults
  else
    let r := gasFlowsFor roomType n
    let oxygen := { r.oxygen with flow := (⌈r.oxygen.flow⌉ : ℚ) }
    let medicalAir := { r.medicalAir with flow := (⌈r.medicalAir.flow⌉ : ℚ) }
    let surgicalAir := { r.surgicalAir with flow := (⌈r.surgicalAir.flow⌉ : ℚ) }
    let vacuum := { r.vacuum with flow := (⌈r.vacuum.flow⌉ : ℚ) }
    { oxygen := { oxygen with pipe := getPipeSize oxygen.flow "oxygen" },
      medicalAir := { medicalAir with pipe := getPipeSize medicalAir.flow "medical_air" },
      surgicalAir := { surgicalAir with pipe := getPipeSize surgicalAir.flow "surgical_air" },
      vacuum := { vacuum with pipe := getPipeSize vacuum.flow "vacuum" } }

/-- C10: when the bed count does not parse (`none`, i.e. `parseFloat` gave
`NaN`) or parses to a nonpositive number, `calculateGasLoad` returns the
initial structure in which all four gas entries have flow 0, empty formula and
empty pipe string: the pipe-sizing step is never applied. -/
theorem c10_nonpositive_beds (roomType : String) (bedCount : Option ℚ)
    (h : bedCount.getD 0 ≤ 0) :
    (calculateGasLoad roomType bedCount).oxygen = ⟨0, "", ""⟩ ∧
    (calculateGasLoad roomType bedCount).medicalAir = ⟨0, "", ""⟩ ∧
    (calculateGasLoad roomType bedCount).surgicalAir = ⟨0, "", ""⟩ ∧
    (calculateGasLoad roomType bedCount).vacuum = ⟨0, "", ""⟩ := by
  unfold calculateGasLoad
  rw [if_pos h]
  exact ⟨rfl, rfl, rfl, rfl⟩

/-- C10 witness: an unparseable bed count for a known room type yields the
all-zero result structure. -/
theorem c10_witness :
    (none : Option ℚ).getD 0 ≤ 0 ∧
    (calculateGasLoad "ward_single_4bed" none).oxygen = ⟨0, "", ""⟩ ∧
    (calculateGasLoad "ward_single_4bed" none).vacuum = ⟨0, "", ""⟩ := by
  refine ⟨by norm_num, ?_, ?_⟩
  · exact (c10_nonpositive_beds "ward_single_4bed" none (by norm_num)).1
  · exact (c10_nonpositive_beds "ward_single_4bed" none (by norm_num)).2.2.2

/-! ## Import normalizer (processDxf) with JavaScript number semantics -/

/-- A JavaScript number as far as the DXF normaliser needs it: a finite
rational, an infinity, or `NaN`. The two IEEE zeros are collapsed to `num 0`
(the sign of zero never influences the normaliser's control flow). -/
inductive JNum where
  | nan
  | neginf
  | posinf
  | num (q : ℚ)
deriving DecidableEq, Repr

/-- `Math.min` on two JS numbers. -/
def jmin : JNum → JNum → JNum
  | JNum.nan, _ => JNum.nan
  | _, JNum.nan => JNum.nan
  | JNum.neginf, _ => JNum.neginf
  | _, JNum.neginf => JNum.neginf
  | JNum.posinf, b => b
  | a, JNum.posinf => a
  | JNum.num a, JNum.num b => JNum.num (min a b)

/-- `Math.max` on two JS numbers. -/
def jmax : JNum → JNum → JNum
  | JNum.nan, _ => JNum.nan
  | _, JNum.nan => JNum.nan
  | JNum.posinf, _ => JNum.posinf
  | _, JNum.posinf => JNum.posinf
  | JNum.neginf, b => b
  | a, JNum.neginf => a
  | JNum.num a, JNum.num b => JNum.num (max a b)

/-- JS truthiness of a number: `0` (either sign) and `NaN` are falsy,
everything else, infinities included, is truthy. -/
def jtruthy : JNum → Bool
  | JNum.nan => false
  | JNum.num q => decide (q ≠ 0)
  | _ => true

/-- The JS `||` operator restricted to numbers. -/
def jor (a b : JNum) : JNum := if jtruthy a then a else b

/-- JS subtraction. `∞ - ∞` with equal signs is `NaN`. -/
def jsub : JNum → JNum → JNum
  | JNum.nan, _ => JNum.nan
  | _, JNum.nan => JNum.nan
  | JNum.posinf, JNum.posinf => JNum.nan
  | JNum.posinf, _ => JNum.posinf
  | JNum.neginf, JNum.neginf => JNum.nan
  | JNum.neginf, _ => JNum.neginf
  | JNum.num _, JNum.posinf => JNum.neginf
  | JNum.num _, JNum.neginf => JNum.posinf
  | JNum.num a, JNum.num b => JNum.num (a - b)

/-- JS division as the normaliser can reach it: a finite value divided by an
infinity is zero (JS: a signed zero, collapsed here), a nonzero finite value
divided by zero is a signed infinity, `0/0` and `∞/∞` are `NaN`. -/
def jdiv : JNum → JNum → JNum
  | JNum.nan, _ => JNum.nan
  | _, JNum.nan => JNum.nan
  | JNum.posinf, JNum.posinf => JNum.nan
  | JNum.posinf, JNum.neginf => JNum.nan
  | JNum.neginf, JNum.posinf => JNum.nan
  | JNum.neginf, JNum.neginf => JNum.nan
  | JNum.posinf, JNum.num b => if b < 0 then JNum.neginf else JNum.posinf
  | JNum.neginf, JNum.num b => if b < 0 then JNum.posinf else JNum.neginf
  | JNum.num _, JNum.posinf => JNum.num 0
  | JNum.num _, JNum.neginf => JNum.num 0
  | JNum.num a, JNum.num b =>
    if b = 0 then
      if a = 0 then JNum.nan else if a > 0 then JNum.posinf else JNum.neginf
    else JNum.num (a / b)

/-- A raw imported line segment (`entity.vertices[0]`, `entity.vertices[1]`). -/
structure Seg where
  x1 : ℚ
  y1 : ℚ
  x2 : ℚ
  y2 : ℚ
deriving DecidableEq, Repr

/-- The running minimum of `processDxf` (FloorPlanDesigner.tsx lines 234-236):
`minX` starts at `Infinity` and each LINE folds in `ent.vertices[0].x`. -/
def processDxfMinX (segs : List Seg) : JNum :=
  segs.foldl (fun m s => jmin m (JNum.num s.x1)) JNum.posinf

/-- The running maximum of `processDxf`: `maxX` starts at `-Infinity` and each
LINE folds in `ent.vertices[0].x`. -/
def processDxfMaxX (segs : List Seg) : JNum :=
  segs.foldl (fun m s => jmax m (JNum.num s.x1)) JNum.neginf

/-- The stored scale of `processDxf` (FloorPlanDesigner.tsx line 237):
`setDxfScale(600/(maxX-minX||1))`. -/
def processDxfScale (segs : List Seg) : JNum :=
  jdiv (JNum.num 600) (jor (jsub (processDxfMaxX segs) (processDxfMinX segs)) (JNum.num 1))

/-- The stored scale of the `part_002` variant of `processDxf` (lines 88-120):
`const width = maxX - minX; setDxfScale(600 / width);` with no guard, where
this variant folds both `vertices[0].x` and `vertices[1].x` into the bounds. -/
def processDxfScaleUnguarded (segs : List Seg) : JNum :=
  let minX := segs.foldl (fun m s => jmin (jmin m (JNum.num s.x1)) (JNum.num s.x2)) JNum.posinf
  let maxX := segs.foldl (fun m s => jmax (jmax m (JNum.num s.x1)) (JNum.num s.x2)) JNum.neginf
  jdiv (JNum.num 600) (jsub maxX minX)

/-- Folding finite values into a finite minimum stays finite. -/
theorem processDxf_foldl_jmin_num (l : List Seg) (q : ℚ) :
    ∃ r : ℚ, l.foldl (fun m s => jmin m (JNum.num s.x1)) (JNum.num q) = JNum.num r := by
  induction l generalizing q with
  | nil => exact ⟨q, rfl⟩
  | cons s l ih => simpa [jmin] using ih (min q s.x1)

/-- Folding finite values into a finite maximum stays finite. -/
theorem processDxf_foldl_jmax_num (l : List Seg) (q : ℚ) :
    ∃ r : ℚ, l.foldl (fun m s => jmax m (JNum.num s.x1)) (JNum.num q) = JNum.num r := by
  induction l generalizing q with
  | nil => exact ⟨q, rfl⟩
  | cons s l ih => simpa [jmax] using ih (max q s.x1)

/-- C9 counterexample: the guarded normaliser stores scale 600, not 1, for a
single vertical (zero-width) segment, and the `part_002` variant stores
`Infinity` there outright; so the claim that the stored scale falls back to 1
is false. -/
theorem c9_counterexample :
    processDxfScale [⟨3, 1, 3, 9⟩] = JNum.num 600 ∧
    JNum.num 600 ≠ JNum.num 1 ∧
    processDxfScaleUnguarded [⟨3, 1, 3, 9⟩] = JNum.posinf := by
  refine ⟨?_, by simp, ?_⟩
  · norm_num [processDxfScale, processDxfMinX, processDxfMaxX, jmin, jmax, jsub, jor,
      jtruthy, jdiv]
  · norm_num [processDxfScaleUnguarded, jmin, jmax, jsub, jdiv]

/-- C9 amended: in the FloorPlanDesigner.tsx normaliser the division is
guarded on the denominator, not the result: `(maxX - minX) || 1` replaces a
zero width by 1, so a zero-width bounding box stores scale 600/1 = 600 (the
target width, not 1); an empty segment list makes the width `-Infinity` and
stores scale 0 (a JS `-0`); in every case the stored scale is a finite number,
never `Infinity` or `NaN`. -/
theorem c9_scale_guard (segs : List Seg) :
    (∃ q : ℚ, processDxfScale segs = JNum.num q) ∧
    (jsub (processDxfMaxX segs) (processDxfMinX segs) = JNum.num 0 →
      processDxfScale segs = JNum.num 600) ∧
    (segs = [] → processDxfScale segs = JNum.num 0) := by
  refine ⟨?_, ?_, ?_⟩
  · cases segs with
    | nil => exact ⟨0, rfl⟩
    | cons s l =>
      obtain ⟨rmin, hmin⟩ := processDxf_foldl_jmin_num l s.x1
      obtain ⟨rmax, hmax⟩ := processDxf_foldl_jmax_num l s.x1
      have hmin' : processDxfMinX (s :: l) = JNum.num rmin := by
        simpa [processDxfMinX, jmin] using hmin
      have hmax' : processDxfMaxX (s :: l) = JNum.num rmax := by
        simpa [processDxfMaxX, jmax] using hmax
      rw [processDxfScale, hmin', hmax']
      by_cases h : rmax - rmin = 0
      · exact ⟨600, by simp [jsub, jor, jtruthy, jdiv, h]⟩
      · exact ⟨600 / (rmax - rmin), by simp [jsub, jor, jtruthy, jdiv, h]⟩
  · intro h
    rw [processDxfScale, h]
    norm_num [jor, jtruthy, jdiv]
  · intro h
    subst h
    rfl

/-- C9 witness: on a concrete zero-width import (one vertical segment at
x = 5) the width is 0 and the guarded normaliser stores the finite scale 600. -/
theorem c9_witness :
    jsub (processDxfMaxX [⟨5, 0, 5, 7⟩]) (processDxfMinX [⟨5, 0, 5, 7⟩]) = JNum.num 0 ∧
    processDxfScale [⟨5, 0, 5, 7⟩] = JNum.num 600 ∧
    (∃ q : ℚ, processDxfScale [⟨5, 0, 5, 7⟩] = JNum.num q) :=
  ⟨by norm_num [processDxfMinX, processDxfMaxX, jmin, jmax, jsub],
    (c9_scale_guard [⟨5, 0, 5, 7⟩]).2.1
      (by norm_num [processDxfMinX, processDxfMaxX, jmin, jmax, jsub]),
    (c9_scale_guard [⟨5, 0, 5, 7⟩]).1⟩

/-! ## Editor state and handlers (part_000) -/

/-- The edit mode toggle (`'PIPE' | 'CAD'`). -/
inductive Mode where
  | PIPE
  | CAD
deriving DecidableEq, Repr

/-- The active CAD tool (`'NONE' | 'LINE' | 'RECT' | 'TEXT'`). -/
inductive CadTool where
  | NONE
  | LINE
  | RECT
  | TEXT
deriving DecidableEq, Repr

/-- The entity kind recorded by the context menu (`'ITEM' | 'PIPE' | 'CAD'`). -/
inductive CtxType where
  | ITEM
  | PIPE
  | CAD
deriving DecidableEq, Repr

/-- The context-menu state (`{ visible, x, y, type, id }`). -/
structure ContextMenu where
  visible : Bool
  x : ℚ
  y : ℚ
  type : CtxType
  id : Nat
deriving DecidableEq, Repr

/-- A context-menu action (`'DELETE' | 'ROTATE'`). -/
inductive MenuAction where
  | DELETE
  | ROTATE
deriving DecidableEq, Repr

/-- The list targeted by a drag commit (`'ITEMS' | 'DRAWABLES'`). -/
inductive ListType where
  | ITEMS
  | DRAWABLES
deriving DecidableEq, Repr

/-- `const BED_ICON_URL` of part_000. -/
def BED_ICON_URL : String := "https://cdn-icons-png.flaticon.com/512/2317/2317981.png"

/-- `const SOURCE_ICON_URL` of part_000. -/
def SOURCE_ICON_URL : String := "https://cdn-icons-png.flaticon.com/512/9368/9368210.png"

/-- The component state of part_000 that the document engine touches: the four
entity collections (as `doc`), the history stack and cursor, and the
interaction state. -/
structure UIState where
  doc : Doc
  history : List Doc
  historyStep : Nat
  activeLayer : GasLayer
  editMode : Mode
  cadTool : CadTool
  snapGrid : Bool
  drawPipeMode : Bool
  selectedStartId : Option Nat
  selectedIds : List Nat
  selectedConnectionId : Option Nat
  contextMenu : Option ContextMenu
  isPanning : Bool
  isDrawing : Bool
  tempDrawable : Option Drawable
deriving DecidableEq, Repr

/-- The initial component state after the mount effect seeds the history with
one empty snapshot (`setHistory([{ items: [], connections: [], drawables: [],
dxfEntities: [] }])`, `historyStep` 0, `activeLayer` `'O2'`, `editMode`
`'PIPE'`, `snapGrid` true, everything else cleared). -/
def initialState : UIState :=
  ⟨emptyDoc, [emptyDoc], 0, GasLayer.O2, Mode.PIPE, CadTool.NONE, true, false,
    none, [], none, none, false, false, none⟩

/-- `saveToHistory` (part_000 lines 93-103): truncate the stack after the
cursor, push the *current* document, evict the oldest entry past 20, and move
the cursor to the new top. -/
def saveToHistory (s : UIState) : UIState :=
  let newHistory := s.history.take (s.historyStep + 1) ++ [s.doc]
  let newHistory := if newHistory.length > 20 then newHistory.drop 1 else newHistory
  { s with history := newHistory, historyStep := newHistory.length - 1 }

/-- `handleUndo` (part_000 lines 109-118): no-op at cursor 0, otherwise restore
the snapshot one below the cursor. Reachable states keep the cursor inside the
stack, so the `getD` default is never consulted. -/
def handleUndo (s : UIState) : UIState :=
  if s.historyStep = 0 then s
  else
    let prevStep := s.historyStep - 1
    { s with doc := s.history.getD prevStep emptyDoc, historyStep := prevStep }

/-- `handleRedo` (part_000 lines 120-129): no-op when the cursor is at (or
past) the top, otherwise restore the snapshot one above the cursor. The guard
`historyStep >= history.length - 1` is JS arithmetic, hence compared in ℤ. -/
def handleRedo (s : UIState) : UIState :=
  if (s.historyStep : ℤ) ≥ (s.history.length : ℤ) - 1 then s
  else
    let nextStep := s.historyStep + 1
    { s with doc := s.history.getD nextStep emptyDoc, historyStep := nextStep }

/-- The Source endpoint that `validateConnection` decides to check:
`const target = startItem?.type === 'Source' ? startItem : (endItem?.type === 'Source' ? endItem : null)`.
When both endpoints are Sources only the start is picked. -/
def connectTarget (d : Doc) (startId endId : Nat) : Option Item :=
  let startItem := d.items.find? (fun i => decide (i.id = startId))
  let endItem := d.items.find? (fun i => decide (i.id = endId))
  if startItem.any (fun i => decide (i.type = ItemType.Source)) then startItem
  else if endItem.any (fun i => decide (i.type = ItemType.Source)) then endItem
  else none

/-- `validateConnection` (part_000 lines 139-155): if the checked Source
endpoint already touches a Connection (the *first* such in the list) of a
different gas layer, reject; otherwise accept. -/
def validateConnection (d : Doc) (startId endId : Nat) (layer : GasLayer) : Bool :=
  match connectTarget d startId endId with
  | some target =>
    match d.connections.find?
        (fun c => decide (c.start = target.id) || decide (c.endId = target.id)) with
    | some existingConn => decide (existingConn.layer = layer)
    | none => true
  | none => true

/-- `addItem` (part_000 lines 197-206): snapshot history, then append a new
item at the viewport centre (passed in here, it is read off the Konva stage)
with the type's label and icon and rotation 0. -/
def addItem (s : UIState) (newId : Nat) (centerX centerY : ℚ) (t : ItemType) : UIState :=
  let s1 := saveToHistory s
  let label := if t = ItemType.Bed then "Bed" else "Source"
  let iconUrl := if t = ItemType.Bed then BED_ICON_URL else SOURCE_ICON_URL
  { s1 with doc := { s1.doc with
      items := s1.doc.items ++ [⟨newId, centerX, centerY, t, label, iconUrl, 0⟩] } }

/-- `handleItemClick` (part_000 lines 208-219): in PIPE mode with pipe drawing
on, a first click stores the pending start item; a second click on a
*different* item validates and, on success, snapshots history and appends the
Connection, then clears the pending item (also on rejection); a second click
on the *same* item falls through both branches and leaves the state untouched. -/
def handleItemClick (s : UIState) (newId clickedId : Nat) : UIState :=
  if s.editMode = Mode.PIPE ∧ s.drawPipeMode then
    match s.selectedStartId with
    | none => { s with selectedStartId := some clickedId }
    | some startId =>
      if startId ≠ clickedId then
        let s' :=
          if validateConnection s.doc startId clickedId s.activeLayer then
            let s2 := saveToHistory s
            { s2 with doc := { s2.doc with connections :=
                s2.doc.connections ++ [⟨newId, startId, clickedId, 0, s.activeLayer⟩] } }
          else s
        { s' with selectedStartId := none }
      else s
  else s

/-- `handleContextMenu` (part_000 lines 158-170): record the clicked entity
kind and id (and the pointer position) in the context-menu state. -/
def handleContextMenu (s : UIState) (t : CtxType) (id : Nat) (x y : ℚ) : UIState :=
  { s with contextMenu := some ⟨true, x, y, t, id⟩ }

/-- `handleMenuAction` (part_000 lines 172-194): with a context menu open,
snapshot history first, then delete (items cascade to their connections) or
rotate (+90°, no wrap) the recorded entity, and close the menu. -/
def handleMenuAction (s : UIState) (action : MenuAction) : UIState :=
  match s.contextMenu with
  | none => s
  | some cm =>
    let s1 := saveToHistory s
    let s2 :=
      match action, cm.type with
      | MenuAction.DELETE, CtxType.ITEM =>
        { s1 with doc := { s1.doc with
            items := s1.doc.items.filter (fun i => decide (i.id ≠ cm.id)),
            connections := s1.doc.connections.filter
              (fun c => decide (c.start ≠ cm.id) && decide (c.endId ≠ cm.id)) } }
      | MenuAction.DELETE, CtxType.PIPE =>
        { s1 with doc := { s1.doc with
            connections := s1.doc.connections.filter (fun c => decide (c.id ≠ cm.id)) } }
      | MenuAction.DELETE, CtxType.CAD =>
        { s1 with doc := { s1.doc with
            drawables := s1.doc.drawables.filter (fun dr => decide (dr.id ≠ cm.id)) } }
      | MenuAction.ROTATE, CtxType.ITEM =>
        { s1 with doc := { s1.doc with
            items := s1.doc.items.map
              (fun (i : Item) => if i.id = cm.id then { i with rotation := i.rotation + 90 } else i) } }
      | MenuAction.ROTATE, CtxType.CAD =>
        { s1 with doc := { s1.doc with
            drawables := s1.doc.drawables.map
              (fun (dr : Drawable) => if dr.id = cm.id then { dr with rotation := some (dr.rotation.getD 0 + 90) } else dr) } }
      | MenuAction.ROTATE, CtxType.PIPE => s1
    { s2 with contextMenu := none }

/-- `handleDragEndWithHistory` (part_000 lines 258-263): snapshot history, then
commit the dragged position into the targeted list. -/
def handleDragEndWithHistory (s : UIState) (id : Nat) (nx ny : ℚ) (lt : ListType) : UIState :=
  let s1 := saveToHistory s
  match lt with
  | ListType.ITEMS =>
    { s1 with doc := { s1.doc with
        items := s1.doc.items.map
          (fun (i : Item) => if i.id = id then { i with x := nx, y := ny } else i) } }
  | ListType.DRAWABLES =>
    { s1 with doc := { s1.doc with
        drawables := s1.doc.drawables.map
          (fun (dr : Drawable) => if dr.id = id then { dr with x := some nx, y := some ny } else dr) } }

/-- Grid snapping as inlined in part_000: `Math.round(pos.x/50)*50`
(`Math.round` rounds half toward +∞, matching Mathlib's `round`). -/
def snapToGridCoord (v : ℚ) : ℚ := (round (v / 50) : ℤ) * 50

/-- `handleStageMouseDown` (part_000 lines 266-288): always closes the context
menu; a click on the bare stage clears the selected connection and (with no CAD
tool active) the selection set; then panning, PIPE mode or no CAD tool all
return early — the pending pipe start item (`selectedStartId`) is never
touched. In CAD mode with a tool, snapshot history and begin a drawing
(`promptText` stands for the `prompt()` result of the TEXT tool). -/
def handleStageMouseDown (s : UIState) (targetIsStage : Bool) (px py : ℚ)
    (newId : Nat) (promptText : Option String) : UIState :=
  let s1 := { s with contextMenu := none }
  let s2 :=
    if targetIsStage then
      { s1 with selectedConnectionId := none,
                selectedIds := if s1.cadTool = CadTool.NONE then [] else s1.selectedIds }
    else s1
  if s2.isPanning ∨ s2.editMode ≠ Mode.CAD ∨ s2.cadTool = CadTool.NONE then s2
  else
    let s3 := saveToHistory s2
    let s4 := { s3 with isDrawing := true }
    let x := if s4.snapGrid then snapToGridCoord px else px
    let y := if s4.snapGrid then snapToGridCoord py else py
    match s4.cadTool with
    | CadTool.LINE =>
      let temp : Drawable :=
        { id := newId, type := DrawKind.LINE, points := some [x, y, x, y], stroke := some "black" }
      { s4 with tempDrawable := some temp }
    | CadTool.RECT =>
      let temp : Drawable :=
        { id := newId, type := DrawKind.RECT, x := some x, y := some y, width := some 0,
          height := some 0, stroke := some "black" }
      { s4 with tempDrawable := some temp }
    | CadTool.TEXT =>
      let s5 :=
        match promptText with
        | some txt =>
          let textDr : Drawable :=
            { id := newId, type := DrawKind.TEXT, x := some x, y := some y, text := some txt,
              fill := some "black" }
          { s4 with doc := { s4.doc with drawables := s4.doc.drawables ++ [textDr] } }
        | none => s4
      { s5 with cadTool := CadTool.NONE, isDrawing := false }
    | CadTool.NONE => s4

/-- Clicking a pipe selects it (`onClick={() => setSelectedConnectionId(conn.id)}`). -/
def clickPipe (s : UIState) (id : Nat) : UIState := { s with selectedConnectionId := some id }

/-- The bend-handle drag (part_000 lines 395-397): while a selected pipe's
handle is dragged in PIPE mode (the handle only exists when the connection is
selected and both endpoints resolve), the bend offset becomes
`newBendX - (A.x+B.x)/2 - layerOffset`. No history snapshot happens here. -/
def bendDragMove (s : UIState) (connId : Nat) (newX : ℚ) : UIState :=
  match s.doc.connections.find? (fun c => decide (c.id = connId)) with
  | none => s
  | some conn =>
    match s.doc.items.find? (fun i => decide (i.id = conn.start)),
        s.doc.items.find? (fun i => decide (i.id = conn.endId)) with
    | some startItem, some endItem =>
      if s.selectedConnectionId = some connId ∧ s.editMode = Mode.PIPE then
        { s with doc := { s.doc with connections := s.doc.connections.map (fun (c : Connection) =>
            if c.id = connId then
              { c with bendOffset := newX - (startItem.x + endItem.x) / 2 - LAYER_OFFSETS conn.layer }
            else c) } }
      else s
    | _, _ => s

/-- The `Draw Pipe` toolbar button: toggle pipe drawing and clear the pending
start (`setDrawPipeMode(!drawPipeMode); setSelectedStartId(null)`). -/
def toggleDrawPipe (s : UIState) : UIState :=
  { s with drawPipeMode := !s.drawPipeMode, selectedStartId := none }

/-- The gas-layer selector (`setActiveLayer`). -/
def setActiveLayer (s : UIState) (L : GasLayer) : UIState := { s with activeLayer := L }

/-- The mode toggle buttons (`setEditMode`). -/
def setEditMode (s : UIState) (m : Mode) : UIState := { s with editMode := m }

/-! ## The public mutation operations as a step relation -/

/-- One public editor operation: place an item, click an item (which drives the
two-click connect gesture), select a pipe, open the context menu and run a menu
action (delete/rotate), commit a drag, drag the bend handle and release it,
undo, redo, or toggle the PIPE-mode controls. `Date.now()` results arrive as
explicit id parameters. -/
inductive Op where
  | place (newId : Nat) (cx cy : ℚ) (t : ItemType)
  | clickItem (newId clickedId : Nat)
  | clickPipe (id : Nat)
  | openMenu (t : CtxType) (id : Nat) (x y : ℚ)
  | menu (a : MenuAction)
  | dragEnd (id : Nat) (nx ny : ℚ) (lt : ListType)
  | bendMove (connId : Nat) (newX : ℚ)
  | bendEnd
  | undo
  | redo
  | togglePipeDraw
  | setLayer (L : GasLayer)
  | setMode (m : Mode)

/-- Dispatch one operation to its part_000 handler. -/
def opStep (s : UIState) : Op → UIState
  | Op.place newId cx cy t => addItem s newId cx cy t
  | Op.clickItem newId clickedId => handleItemClick s newId clickedId
  | Op.clickPipe id => clickPipe s id
  | Op.openMenu t id x y => handleContextMenu s t id x y
  | Op.menu a => handleMenuAction s a
  | Op.dragEnd id nx ny lt => handleDragEndWithHistory s id nx ny lt
  | Op.bendMove connId newX => bendDragMove s connId newX
  | Op.bendEnd => saveToHistory s
  | Op.undo => handleUndo s
  | Op.redo => handleRedo s
  | Op.togglePipeDraw => toggleDrawPipe s
  | Op.setLayer L => setActiveLayer s L
  | Op.setMode m => setEditMode s m

/-- Run a sequence of public operations from a state. -/
def runOps (ops : List Op) (s : UIState) : UIState := ops.foldl opStep s

/-- The spec's Source single-gas invariant (§8): every Source item sees at
most one distinct gas layer among the connections incident to it. -/
def sourceSingleGas (d : Doc) : Prop :=
  ∀ it ∈ d.items, it.type = ItemType.Source →
    ∀ c1 ∈ d.connections, ∀ c2 ∈ d.connections,
      (c1.start = it.id ∨ c1.endId = it.id) →
      (c2.start = it.id ∨ c2.endId = it.id) → c1.layer = c2.layer

/-- The spec's no-dangling-reference property (§8): every connection's two
endpoint ids resolve to items of the document. -/
def noDangling (d : Doc) : Prop :=
  ∀ c ∈ d.connections,
    (∃ i ∈ d.items, i.id = c.start) ∧ (∃ i ∈ d.items, i.id = c.endId)

/-- An operation sequence reachable from the freshly mounted editor: place two
Sources and a Bed, switch pipe drawing on, connect Source 2 to Bed 3 with the
default O2 layer, switch the layer to Vacuum, and connect Source 1 to
Source 2. The validator checks only the start endpoint (Source 1, which has no
connections yet), so the VAC pipe onto Source 2 is accepted. -/
def c1FailingOps : List Op :=
  [Op.place 1 100 100 ItemType.Source,
   Op.place 2 200 100 ItemType.Source,
   Op.place 3 300 100 ItemType.Bed,
   Op.togglePipeDraw,
   Op.clickItem 0 2,
   Op.clickItem 101 3,
   Op.setLayer GasLayer.VAC,
   Op.clickItem 0 1,
   Op.clickItem 102 2]

/-- C1: the Source single-gas invariant is *not* preserved by the public
mutation API: after `c1FailingOps` (all public operations from the initial
state) the document holds Source item 2 with one O2 and one VAC connection
incident to it, violating the invariant the validator's own comment states
("A Source cannot have two different gases connected to it"). -/
theorem c1_invariant_violated :
    ¬ sourceSingleGas (runOps c1FailingOps initialState).doc ∧
    (runOps c1FailingOps initialState).doc.connections.map Connection.layer =
      [GasLayer.O2, GasLayer.VAC] := by
  constructor
  · intro hinv
    have h2 := hinv ⟨2, 200, 100, ItemType.Source, "Source", SOURCE_ICON_URL, 0⟩
      (by decide) rfl
      ⟨101, 2, 3, 0, GasLayer.O2⟩ (by decide)
      ⟨102, 1, 2, 0, GasLayer.VAC⟩ (by decide)
      (Or.inl rfl) (Or.inr rfl)
    exact absurd h2 (by decide)
  · rfl

/-! ## C2: rejection of conflicting connections -/

/-- A document with two Sources (ids 1 and 2) and a Bed (id 5), where Source 2
already supplies O2 to the Bed. -/
def c2Doc : Doc :=
  { items := [⟨1, 0, 0, ItemType.Source, "Source", SOURCE_ICON_URL, 0⟩,
              ⟨2, 200, 0, ItemType.Source, "Source", SOURCE_ICON_URL, 0⟩,
              ⟨5, 400, 0, ItemType.Bed, "Bed", BED_ICON_URL, 0⟩],
    connections := [⟨10, 2, 5, 0, GasLayer.O2⟩],
    drawables := [], dxfEntities := [] }

/-- The editor pending a VAC connection that starts at Source 1. -/
def c2State : UIState :=
  { initialState with
    doc := c2Doc,
    history := [c2Doc],
    drawPipeMode := true,
    activeLayer := GasLayer.VAC,
    selectedStartId := some 1 }

/-- C2 counterexample: completing the pending VAC connection onto Source 2 —
whose only existing connection carries O2 — is *accepted*: the validator only
ever checks the start endpoint once it is a Source, so the end endpoint's
conflict goes unnoticed and the Connections count grows from 1 to 2 instead of
staying at 1 as the claim requires. -/
theorem c2_counterexample :
    validateConnection c2Doc 1 2 GasLayer.VAC = true ∧
    (handleItemClick c2State 102 2).doc.connections.length = 2 ∧
    (2 : Nat) ≠ 1 ∧
    (∃ i ∈ c2Doc.items, i.id = 2 ∧ i.type = ItemType.Source) ∧
    (∃ c ∈ c2Doc.connections, (c.start = 2 ∨ c.endId = 2) ∧ c.layer ≠ GasLayer.VAC) := by
  refine ⟨rfl, rfl, by decide, by decide, by decide⟩

/-- C2 amended: only one endpoint is checked — the start if it is a Source,
otherwise the end (`connectTarget`). When the checked Source's first incident
existing Connection carries a different gas layer, the commit is rejected and
the whole editor state is left unchanged except that the pending start item is
cleared: no Connection is added, no history snapshot is taken, and the
Connections collection keeps its length (the §8 scenario). -/
theorem c2_reject_leaves_state_unchanged (s : UIState) (newId a b : Nat)
    (t : Item) (c : Connection)
    (hmode : s.editMode = Mode.PIPE) (hdraw : s.drawPipeMode = true)
    (hpend : s.selectedStartId = some a) (hne : a ≠ b)
    (htarget : connectTarget s.doc a b = some t)
    (hfind : s.doc.connections.find?
        (fun c => decide (c.start = t.id) || decide (c.endId = t.id)) = some c)
    (hlayer : c.layer ≠ s.activeLayer) :
    handleItemClick s newId b = { s with selectedStartId := none } := by
  have hval : validateConnection s.doc a b s.activeLayer = false := by
    unfold validateConnection
    rw [htarget]
    simp only [hfind]
    simp [hlayer]
  unfold handleItemClick
  rw [hpend]
  simp [hmode, hdraw, hne, hval]

/-- The §8 scenario document: Source 1 supplies O2 to Bed 2; Bed 3 is free. -/
def c2ScenarioDoc : Doc :=
  { items := [⟨1, 0, 0, ItemType.Source, "Source", SOURCE_ICON_URL, 0⟩,
              ⟨2, 300, 0, ItemType.Bed, "Bed", BED_ICON_URL, 0⟩,
              ⟨3, 300, 200, ItemType.Bed, "Bed", BED_ICON_URL, 0⟩],
    connections := [⟨10, 1, 2, 0, GasLayer.O2⟩],
    drawables := [], dxfEntities := [] }

/-- The §8 scenario editor state: pipe drawing on, layer VAC, pending at
Source 1. -/
def c2ScenarioState : UIState :=
  { initialState with
    doc := c2ScenarioDoc,
    history := [c2ScenarioDoc],
    drawPipeMode := true,
    activeLayer := GasLayer.VAC,
    selectedStartId := some 1 }

/-- C2 witness: in the §8 scenario a second connection from the O2 Source with
layer VAC is rejected, the document is unchanged and the Connections count
stays 1. -/
theorem c2_witness :
    handleItemClick c2ScenarioState 99 3 = { c2ScenarioState with selectedStartId := none } ∧
    (handleItemClick c2ScenarioState 99 3).doc = c2ScenarioDoc ∧
    (handleItemClick c2ScenarioState 99 3).doc.connections.length = 1 := by
  have h := c2_reject_leaves_state_unchanged c2ScenarioState 99 1 3
    ⟨1, 0, 0, ItemType.Source, "Source", SOURCE_ICON_URL, 0⟩
    ⟨10, 1, 2, 0, GasLayer.O2⟩
    rfl rfl rfl (by decide) rfl rfl (by decide)
  refine ⟨h, ?_, ?_⟩
  · rw [h]
    rfl
  · rw [h]
    rfl

/-! ## C6: cascading delete -/

/-- `deleteSelected` (FloorPlanDesigner.tsx line 337): remove every selected
id from each collection — connections are filtered by their *own* id, not by
their endpoints, so nothing cascades. -/
def deleteSelected (selectedIds : List Nat) (d : Doc) : Doc :=
  { d with
    drawables := d.drawables.filter (fun dr => !selectedIds.contains dr.id),
    items := d.items.filter (fun i => !selectedIds.contains i.id),
    connections := d.connections.filter (fun c => !selectedIds.contains c.id) }

/-- Two items joined by one connection. -/
def c6Doc : Doc :=
  { items := [⟨1, 0, 0, ItemType.Source, "Source", SOURCE_ICON_URL, 0⟩,
              ⟨2, 100, 0, ItemType.Bed, "Bed", BED_ICON_URL, 0⟩],
    connections := [⟨9, 1, 2, 0, GasLayer.O2⟩],
    drawables := [], dxfEntities := [] }

/-- C6 counterexample: deleting item 1 through `deleteSelected` (the
Delete-key/button path of FloorPlanDesigner.tsx) removes the item but keeps
connection 9, which still references the now-missing item 1 — so not every
public delete operation cascades. -/
theorem c6_counterexample :
    (deleteSelected [1] c6Doc).items.map Item.id = [2] ∧
    (deleteSelected [1] c6Doc).connections = [⟨9, 1, 2, 0, GasLayer.O2⟩] ∧
    ¬ noDangling (deleteSelected [1] c6Doc) := by
  refine ⟨rfl, rfl, ?_⟩
  intro h
  have h9 := h ⟨9, 1, 2, 0, GasLayer.O2⟩ (by decide)
  exact absurd h9.1 (by decide)

/-- C6 amended: the context-menu DELETE on an Item (part_000
`handleMenuAction`) does cascade — it removes every Connection whose start or
end references the deleted id, and it preserves the no-dangling property; it
is only the CAD-mode `deleteSelected` path that removes connections by their
own id and can leave a Connection referencing a missing Item (tolerated as
non-renderable). -/
theorem c6_menu_delete_cascades (s : UIState) (cm : ContextMenu)
    (hcm : s.contextMenu = some cm) (htype : cm.type = CtxType.ITEM)
    (hnd : noDangling s.doc) :
    (∀ c ∈ (handleMenuAction s MenuAction.DELETE).doc.connections,
        c.start ≠ cm.id ∧ c.endId ≠ cm.id) ∧
    noDangling (handleMenuAction s MenuAction.DELETE).doc := by
  obtain ⟨v, mx, my, mty, mid⟩ := cm
  have hty : mty = CtxType.ITEM := htype
  subst hty
  have hitems : (handleMenuAction s MenuAction.DELETE).doc.items =
      s.doc.items.filter (fun i => decide (i.id ≠ mid)) := by
    unfold handleMenuAction
    rw [hcm]
    rfl
  have hconns : (handleMenuAction s MenuAction.DELETE).doc.connections =
      s.doc.connections.filter
        (fun c => decide (c.start ≠ mid) && decide (c.endId ≠ mid)) := by
    unfold handleMenuAction
    rw [hcm]
    rfl
  constructor
  · intro c hc
    rw [hconns] at hc
    simp only [List.mem_filter, Bool.and_eq_true, decide_eq_true_eq] at hc
    exact ⟨hc.2.1, hc.2.2⟩
  · intro c hc
    rw [hconns] at hc
    simp only [List.mem_filter, Bool.and_eq_true, decide_eq_true_eq] at hc
    obtain ⟨hcmem, hcs, hce⟩ := hc
    obtain ⟨⟨i1, hi1, hid1⟩, ⟨i2, hi2, hid2⟩⟩ := hnd c hcmem
    rw [hitems]
    refine ⟨⟨i1, ?_, hid1⟩, ⟨i2, ?_, hid2⟩⟩
    · simp only [List.mem_filter, decide_eq_true_eq]
      exact ⟨hi1, by rw [hid1]; exact hcs⟩
    · simp only [List.mem_filter, decide_eq_true_eq]
      exact ⟨hi2, by rw [hid2]; exact hce⟩

/-- The editor with `c6Doc` loaded and the context menu open on item 1. -/
def c6State : UIState :=
  { initialState with
    doc := c6Doc,
    history := [c6Doc],
    contextMenu := some ⟨true, 0, 0, CtxType.ITEM, 1⟩ }

/-- C6 witness: the context-menu DELETE on item 1 of `c6Doc` leaves no
connection touching id 1 and no dangling references. -/
theorem c6_witness :
    noDangling c6Doc ∧
    (∀ c ∈ (handleMenuAction c6State MenuAction.DELETE).doc.connections,
        c.start ≠ 1 ∧ c.endId ≠ 1) ∧
    noDangling (handleMenuAction c6State MenuAction.DELETE).doc := by
  have hnd : noDangling c6Doc := by
    unfold noDangling
    decide
  have h := c6_menu_delete_cascades c6State ⟨true, 0, 0, CtxType.ITEM, 1⟩ rfl rfl hnd
  exact ⟨hnd, h.1, h.2⟩

/-! ## C8: the pending connect gesture on same-item / empty-canvas clicks -/

/-- A document holding the single item 1. -/
def c8Doc : Doc :=
  { emptyDoc with items := [⟨1, 0, 0, ItemType.Bed, "Bed", BED_ICON_URL, 0⟩] }

/-- The editor pending a connection start at item 1 in PIPE mode. -/
def c8State : UIState :=
  { initialState with
    doc := c8Doc,
    history := [c8Doc],
    drawPipeMode := true,
    selectedStartId := some 1 }

/-- C8 counterexample: with the gesture pending at item 1, clicking item 1
again leaves `selectedStartId` at `some 1` (the code's `else if` falls
through), and clicking the empty canvas also leaves it at `some 1`
(`handleStageMouseDown` never touches it) — the gesture is *not* cancelled
back to idle as the claim states. -/
theorem c8_counterexample :
    (handleItemClick c8State 99 1).selectedStartId = some 1 ∧
    (handleStageMouseDown c8State true 0 0 99 none).selectedStartId = some 1 ∧
    some 1 ≠ (none : Option Nat) :=
  ⟨rfl, rfl, by decide⟩

/-- C8 amended: while the connect gesture is pending at item A in PIPE mode,
clicking item A again is a complete no-op (the state, pending item included,
is unchanged), and clicking empty canvas leaves the pending start item and the
document untouched (it only closes the context menu and clears the
connection/CAD selections); in neither case is a Connection created. The
pending item is only cleared by a second click on a different item or by the
Draw Pipe toggle. -/
theorem c8_pending_not_cancelled (s : UIState) (a newId : Nat) (px py : ℚ)
    (promptText : Option String)
    (hmode : s.editMode = Mode.PIPE) (hdraw : s.drawPipeMode = true)
    (hpend : s.selectedStartId = some a) :
    handleItemClick s newId a = s ∧
    (handleStageMouseDown s true px py newId promptText).selectedStartId = some a ∧
    (handleStageMouseDown s true px py newId promptText).doc = s.doc := by
  refine ⟨?_, ?_, ?_⟩
  · unfold handleItemClick
    rw [hpend]
    simp [hmode, hdraw]
  · unfold handleStageMouseDown
    simp [hmode, hpend]
  · unfold handleStageMouseDown
    simp [hmode]

/-- C8 witness: the concrete pending state `c8State` exhibits the no-op
behaviour on a same-item click and an empty-canvas click. -/
theorem c8_witness :
    handleItemClick c8State 99 1 = c8State ∧
    (handleStageMouseDown c8State true 5 5 99 none).selectedStartId = some 1 ∧
    (handleStageMouseDown c8State true 5 5 99 none).doc = c8State.doc :=
  c8_pending_not_cancelled c8State 1 99 5 5 none rfl rfl rfl

/-! ## C3: history round trip -/

/-- One structural mutation as part_000 performs it: `saveToHistory()` first
(capturing the *pre*-mutation document), then the setter applies the document
transformation `f`. This is the shape shared by `addItem`, the connect commit
of `handleItemClick`, `handleMenuAction` and `handleDragEndWithHistory`. -/
def recordThenMutate (f : Doc → Doc) (s : UIState) : UIState :=
  let s1 := saveToHistory s
  { s1 with doc := f s1.doc }

/-- Run a sequence of recorded mutations. -/
def applyMuts (fs : List (Doc → Doc)) (s : UIState) : UIState :=
  fs.foldl (fun s f => recordThenMutate f s) s

/-- The pure composition of the document mutations, without history. -/
def chainMuts (fs : List (Doc → Doc)) (d : Doc) : Doc := fs.foldl (fun d f => f d) d

/-- The editor freshly mounted on document `d`: history holds the single
snapshot `d` and the cursor is 0 (the mount effect of part_000 lines 132-136). -/
def initWithDoc (d : Doc) : UIState :=
  { initialState with doc := d, history := [d] }

theorem chainMuts_append (fs : List (Doc → Doc)) (f : Doc → Doc) (d : Doc) :
    chainMuts (fs ++ [f]) d = f (chainMuts fs d) := by
  simp [chainMuts, List.foldl_append]

theorem applyMuts_append (fs : List (Doc → Doc)) (f : Doc → Doc) (s : UIState) :
    applyMuts (fs ++ [f]) s = recordThenMutate f (applyMuts fs s) := by
  simp [applyMuts, List.foldl_append]

/-- Closed form of `applyMuts` from a freshly mounted editor, as long as no
eviction happens (at most 19 mutations): the document is the chained mutation
result, the history holds the initial document followed by every proper-prefix
state, and the cursor sits at the top. The snapshot at index `k ≥ 1`
is the state immediately preceding the `k`-th mutation, and the final
(post-sequence) state is never in the history. -/
theorem applyMuts_spec (d : Doc) : ∀ (fs : List (Doc → Doc)), fs.length ≤ 19 →
    applyMuts fs (initWithDoc d) =
      { initWithDoc d with
        doc := chainMuts fs d,
        history := d :: (List.range fs.length).map (fun i => chainMuts (fs.take i) d),
        historyStep := fs.length } := by
  intro fs
  induction fs using List.reverseRecOn with
  | nil => intro _; rfl
  | append_singleton fs f ih =>
    intro h
    have hlen : fs.length + 1 ≤ 19 := by simpa using h
    rw [applyMuts_append, ih (by omega)]
    have hHlen :
        (d :: (List.range fs.length).map (fun i => chainMuts (fs.take i) d)).length =
          fs.length + 1 := by simp
    have hmap : (List.range (fs.length + 1)).map (fun i => chainMuts ((fs ++ [f]).take i) d)
        = (List.range fs.length).map (fun i => chainMuts (fs.take i) d) ++ [chainMuts fs d] := by
      rw [List.range_succ, List.map_append]
      congr 1
      · refine List.map_congr_left (fun i hi => ?_)
        rw [List.take_append_of_le_length (le_of_lt (List.mem_range.mp hi))]
      · simp only [List.map_cons, List.map_nil]
        rw [List.take_append_of_le_length (le_refl _), List.take_length]
    unfold recordThenMutate saveToHistory
    simp only [List.take_of_length_le (le_of_eq hHlen), List.length_append, hHlen,
      List.length_singleton]
    rw [if_neg (by omega)]
    simp only [List.length_append, hHlen, List.length_singleton, Nat.add_sub_cancel]
    rw [chainMuts_append, hmap, List.cons_append]

/-- Iterating `handleUndo` `k ≥ 1` times while the cursor has room moves the
cursor back `k` and restores the snapshot there. -/
theorem handleUndo_iter : ∀ (k : Nat), 1 ≤ k → ∀ (s : UIState), k ≤ s.historyStep →
    handleUndo^[k] s =
      { s with doc := s.history.getD (s.historyStep - k) emptyDoc,
               historyStep := s.historyStep - k } := by
  intro k
  induction k with
  | zero => intro h; exact absurd h (by omega)
  | succ k ih =>
    intro _ s hs
    rw [Function.iterate_succ_apply]
    have hstep : handleUndo s =
        { s with doc := s.history.getD (s.historyStep - 1) emptyDoc,
                 historyStep := s.historyStep - 1 } := by
      unfold handleUndo
      rw [if_neg (by omega)]
    by_cases hk : k = 0
    · subst hk
      simpa using hstep
    · have h1 : 1 ≤ k := by omega
      have hs2 : k ≤ (handleUndo s).historyStep := by
        rw [hstep]
        show k ≤ s.historyStep - 1
        omega
      rw [ih h1 (handleUndo s) hs2, hstep]
      have harith : s.historyStep - 1 - k = s.historyStep - (k + 1) := by omega
      simp only [harith]

/-- Iterating `handleRedo` `k ≥ 1` times while the stack has room above the
cursor moves the cursor forward `k` and restores the snapshot there. -/
theorem handleRedo_iter : ∀ (k : Nat), 1 ≤ k → ∀ (s : UIState),
    s.historyStep + k + 1 ≤ s.history.length →
    handleRedo^[k] s =
      { s with doc := s.history.getD (s.historyStep + k) emptyDoc,
               historyStep := s.historyStep + k } := by
  intro k
  induction k with
  | zero => intro h; exact absurd h (by omega)
  | succ k ih =>
    intro _ s hs
    rw [Function.iterate_succ_apply]
    have hstep : handleRedo s =
        { s with doc := s.history.getD (s.historyStep + 1) emptyDoc,
                 historyStep := s.historyStep + 1 } := by
      unfold handleRedo
      rw [if_neg (by omega)]
    by_cases hk : k = 0
    · subst hk
      simpa using hstep
    · have h1 : 1 ≤ k := by omega
      have hs2 : (handleRedo s).historyStep + k + 1 ≤ (handleRedo s).history.length := by
        rw [hstep]
        show s.historyStep + 1 + k + 1 ≤ s.history.length
        omega
      rw [ih h1 (handleRedo s) hs2, hstep]
      have harith : s.historyStep + 1 + k = s.historyStep + (k + 1) := by omega
      simp only [harith]

/-- Reading the snapshot stack `x :: (range N).map g` at index `N ≥ 1` yields
`g (N - 1)`. -/
theorem getD_cons_map_range (g : Nat → Doc) (dflt x : Doc) (N : Nat) (hN : 1 ≤ N) :
    (x :: (List.range N).map g).getD N dflt = g (N - 1) := by
  obtain ⟨m, rfl⟩ : ∃ m, N = m + 1 := ⟨N - 1, by omega⟩
  rw [List.getD_cons_succ]
  rw [List.getD_eq_getElem _ _ (by simp)]
  simp

/-- C3 amended: starting from a freshly mounted editor on document `d`, apply
any `N ≤ 19` recorded mutations (each calls `saveToHistory` *before* mutating,
the part_000 pattern; the bound keeps eviction away). Undoing `N` times
restores the pre-sequence document `d` exactly. But redoing `N` times
afterwards lands on the state immediately *preceding* the last mutation — the
post-sequence state was never snapshotted, so redo is off by one mutation. -/
theorem c3_history_round_trip (d : Doc) (fs : List (Doc → Doc)) (h : fs.length ≤ 19) :
    (handleUndo^[fs.length] (applyMuts fs (initWithDoc d))).doc = d ∧
    (handleRedo^[fs.length] (handleUndo^[fs.length] (applyMuts fs (initWithDoc d)))).doc =
      chainMuts (fs.take (fs.length - 1)) d := by
  rcases Nat.eq_zero_or_pos fs.length with hN | hN
  · have hfs : fs = [] := List.length_eq_zero.mp hN
    subst hfs
    exact ⟨rfl, rfl⟩
  · rw [applyMuts_spec d fs h]
    rw [handleUndo_iter fs.length hN _ (le_refl _)]
    constructor
    · simp only [Nat.sub_self, List.getD_cons_zero]
    · rw [handleRedo_iter fs.length hN _ (by simp)]
      simp only [Nat.sub_self, Nat.zero_add]
      exact getD_cons_map_range (fun i => chainMuts (fs.take i) d) emptyDoc d fs.length hN

/-- The document mutation performed by adding one Bed at (100,100) with id 7
(`setItems([...items, newItem])`). -/
def mutAddBed (d : Doc) : Doc :=
  { d with items := d.items ++ [⟨7, 100, 100, ItemType.Bed, "Bed", BED_ICON_URL, 0⟩] }

/-- C3 counterexample: one recorded mutation from the empty editor, one undo
(which correctly restores the empty document), then one redo: the document is
*still empty* — not the post-mutation state the claim requires — because the
snapshot pushed by `saveToHistory` is the pre-mutation state and the
post-mutation state never enters the history. -/
theorem c3_counterexample :
    (handleUndo^[1] (applyMuts [mutAddBed] (initWithDoc emptyDoc))).doc = emptyDoc ∧
    (handleRedo^[1] (handleUndo^[1] (applyMuts [mutAddBed] (initWithDoc emptyDoc)))).doc =
      emptyDoc ∧
    mutAddBed emptyDoc ≠ emptyDoc := by
  refine ⟨rfl, rfl, ?_⟩
  intro hcontr
  have : (mutAddBed emptyDoc).items.length = emptyDoc.items.length := by rw [hcontr]
  exact absurd this (by decide)

/-- C3 witness: the amended round trip at the concrete one-mutation sequence:
undo restores the empty pre-state, and redo lands on the state preceding the
single mutation (again the empty document). -/
theorem c3_witness :
    (handleUndo^[1] (applyMuts [mutAddBed] (initWithDoc emptyDoc))).doc = emptyDoc ∧
    (handleRedo^[1] (handleUndo^[1] (applyMuts [mutAddBed] (initWithDoc emptyDoc)))).doc =
      chainMuts ([mutAddBed].take 0) emptyDoc :=
  c3_history_round_trip emptyDoc [mutAddBed] (by norm_num)
